import Mathlib

/-!
Verification of the `ssh-liberty-bridge` client generator
(`src/generator/generate.py`, `src/generator/utils.py`) against its
natural-language specification.

The Python code is shallowly embedded: pure string manipulation is
translated to executable Lean functions on `String` / `List Char`;
the Redis-backed client set is an explicit `List String` threaded
through the operations; fallible steps return `Except`; externally
determined data (file contents, the freshly generated keypair, I/O
success) is supplied through an explicit environment record, and the
order of externally visible effects is recorded in an event trace.

Python string semantics notes, used throughout:
* `str.split()` with no argument splits on runs of whitespace and
  discards empty tokens; `str.strip()` removes leading and trailing
  whitespace.  We model the ASCII whitespace characters (space, tab,
  newline, carriage return, vertical tab, form feed), which are the
  ones that occur in host-key files.
* `str.lower` / `str.upper` are modelled on ASCII letters, which are
  the only characters appearing in the configuration variable names
  the program uses.
-/

/-- Characters treated as whitespace by Python `str.split()` / `str.strip()`
(ASCII subset). -/
def pyIsSpace (c : Char) : Bool :=
  c = ' ' || c = '\t' || c = '\n' || c = '\r' || c = Char.ofNat 11 || c = Char.ofNat 12

/-- Python `str.strip()`: drop leading and trailing whitespace. -/
def pyStrip (s : String) : String :=
  String.mk (((s.data.dropWhile pyIsSpace).reverse.dropWhile pyIsSpace).reverse)

/-- Helper for `pySplit`: `cur` holds the (reversed) characters of the token
currently being scanned. -/
def pySplitGo : List Char → List Char → List String
  | [], cur => if cur.isEmpty then [] else [String.mk cur.reverse]
  | c :: cs, cur =>
    if pyIsSpace c then
      (if cur.isEmpty then [] else [String.mk cur.reverse]) ++ pySplitGo cs []
    else
      pySplitGo cs (c :: cur)

/-- Python `str.split()` with no separator: split on runs of whitespace,
discarding empty tokens. -/
def pySplit (s : String) : List String :=
  pySplitGo s.data []

/-- Python `" ".join(l)`. -/
def joinSpace (l : List String) : String :=
  String.intercalate " " l

/-- The processing `generate` applies to the contents of one host-key file
(generate.py lines 154-160): strip, whitespace-split, truncate to the first
two fields when there are more than two, and re-join with single spaces. -/
def processHostKey (contents : String) : String :=
  let hk := pySplit (pyStrip contents)
  let hk := if hk.length > 2 then hk.take 2 else hk
  joinSpace hk

/-- C5: for every host-key file contents, the collected HostKeyList entry is
exactly the first two whitespace-separated fields joined by a single space
(which, for files with two or fewer fields, is all of the fields joined by a
single space); in particular the contents
"ssh-ed25519 AAAA... host1" yield the entry "ssh-ed25519 AAAA...". -/
theorem C5_hostkey_truncation :
    (∀ contents : String,
      processHostKey contents
        = joinSpace ((pySplit (pyStrip contents)).take 2)) ∧
    processHostKey "ssh-ed25519 AAAA... host1" = "ssh-ed25519 AAAA..." := by
  constructor
  · intro contents
    unfold processHostKey
    by_cases h : (pySplit (pyStrip contents)).length > 2
    · simp [h]
    · have hle : (pySplit (pyStrip contents)).length ≤ 2 := by omega
      simp [h, List.take_of_length_le hle]
  · rfl

/-!
Configuration resolution (`get_variable`, utils.py lines 17-56 and the
identical copy in generate.py lines 28-67).

`argparse.Namespace.__dict__` maps flag names to Python values; the values
the parser in this program produces are strings, ints, bools (for
`--list`) and `None` (for absent `nargs` options).  `PyVal` models that
value universe together with Python's `str()` and the dynamic type tests
`type(tmp) == str` / `type(tmp) == int` (which are false for `bool` and
`None`).
-/

/-- A Python value stored in `args.__dict__`. -/
inductive PyVal where
  | pstr : String → PyVal
  | pint : Int → PyVal
  | pbool : Bool → PyVal
  | pnone : PyVal
deriving DecidableEq

/-- Python `str()` on the values above. -/
def pyValStr : PyVal → String
  | .pstr s => s
  | .pint i => toString i
  | .pbool true => "True"
  | .pbool false => "False"
  | .pnone => "None"

/-- First-match association lookup (Python dict keys are unique, so
first-match lookup is faithful). -/
def lookupPy (k : String) : List (String × PyVal) → Option PyVal
  | [] => none
  | (k₂, v) :: rest => if k₂ = k then some v else lookupPy k rest

/-- First-match association lookup in the environment-variable map
(`os.getenv`). -/
def lookupEnv (k : String) : List (String × String) → Option String
  | [] => none
  | (k₂, v) :: rest => if k₂ = k then some v else lookupEnv k rest

/-- Python `str.lower` on one character (ASCII). -/
def asciiLowerChar (c : Char) : Char :=
  if 'A' ≤ c ∧ c ≤ 'Z' then Char.ofNat (c.toNat + 32) else c

/-- Python `str.upper` on one character (ASCII). -/
def asciiUpperChar (c : Char) : Char :=
  if 'a' ≤ c ∧ c ≤ 'z' then Char.ofNat (c.toNat - 32) else c

/-- Python `str.lower` (ASCII model). -/
def asciiLower (s : String) : String := String.mk (s.data.map asciiLowerChar)

/-- Python `str.upper` (ASCII model). -/
def asciiUpper (s : String) : String := String.mk (s.data.map asciiUpperChar)

/-- Embedding of `get_variable(variable, args, strict, default)`.

The `try` block: look up `variable.lower()` in `args.__dict__`; when the
flag is absent, or its value is the empty string or the `int` sentinel
`-1`, fall back to `os.getenv(variable.upper())`, raising `RuntimeError`
when the environment variable is unset; otherwise return `str(tmp)`.
The `except` block: a provided `default` wins over everything, then
`strict` re-raises, otherwise `None` is returned.  `Except.error ()`
models the function raising; `Except.ok none` models it returning
Python `None`. -/
def get_variable (varName : String) (args : List (String × PyVal))
    (osEnv : List (String × String)) (strict : Bool) (default : Option String) :
    Except Unit (Option String) :=
  let lvar := asciiLower varName
  let uvar := asciiUpper varName
  let attempt : Except Unit String :=
    match lookupPy lvar args with
    | some tmp =>
      if tmp = PyVal.pstr "" ∨ tmp = PyVal.pint (-1) then
        match lookupEnv uvar osEnv with
        | some r => .ok r
        | none => .error ()
      else
        .ok (pyValStr tmp)
    | none =>
      match lookupEnv uvar osEnv with
      | some r => .ok r
      | none => .error ()
  match attempt with
  | .ok r => .ok (some r)
  | .error _ =>
    match default with
    | some d => .ok (some d)
    | none => if strict then .error () else .ok none

/-- C7: configuration resolution order.  A CLI value that is present and is
neither the empty string nor the int sentinel `-1` wins; otherwise the
upper-cased environment variable; otherwise the caller-supplied default;
otherwise, under `strict`, the lookup raises. -/
theorem C7_resolution_order (varName : String) (args : List (String × PyVal))
    (osEnv : List (String × String)) (strict : Bool) (default : Option String) :
    (∀ v, lookupPy (asciiLower varName) args = some v →
      v ≠ PyVal.pstr "" → v ≠ PyVal.pint (-1) →
      get_variable varName args osEnv strict default = .ok (some (pyValStr v))) ∧
    ((lookupPy (asciiLower varName) args = none ∨
      lookupPy (asciiLower varName) args = some (PyVal.pstr "") ∨
      lookupPy (asciiLower varName) args = some (PyVal.pint (-1))) →
      ((∀ s, lookupEnv (asciiUpper varName) osEnv = some s →
        get_variable varName args osEnv strict default = .ok (some s)) ∧
       (lookupEnv (asciiUpper varName) osEnv = none →
        (∀ d, default = some d →
          get_variable varName args osEnv strict default = .ok (some d)) ∧
        (default = none → strict = true →
          get_variable varName args osEnv strict default = .error ())))) := by
  refine ⟨?_, ?_⟩
  · intro v hv hne hns
    unfold get_variable
    simp only [hv]
    have : ¬ (v = PyVal.pstr "" ∨ v = PyVal.pint (-1)) := by
      rintro (h | h) <;> [exact hne h; exact hns h]
    simp [this]
  · rintro hcli
    refine ⟨?_, ?_⟩
    · intro s hs
      unfold get_variable
      rcases hcli with h | h | h <;> simp [h, hs]
    · intro hnone
      refine ⟨?_, ?_⟩
      · intro d hd
        unfold get_variable
        rcases hcli with h | h | h <;> simp [h, hnone, hd]
      · intro hd hstrict
        unfold get_variable
        rcases hcli with h | h | h <;> simp [h, hnone, hd, hstrict]

/-- Witness for C7 at concrete inputs: the CLI value "cli" wins over the
environment value "env"; with the CLI flag set to the empty-string default,
the environment value wins; with neither, the strict lookup raises. -/
theorem C7_resolution_order_witness :
    get_variable "server_addr" [("server_addr", PyVal.pstr "cli")]
      [("SERVER_ADDR", "env")] true none = .ok (some "cli") ∧
    get_variable "server_addr" [("server_addr", PyVal.pstr "")]
      [("SERVER_ADDR", "env")] true none = .ok (some "env") ∧
    get_variable "server_addr" [("server_addr", PyVal.pstr "")] [] true none
      = .error () := by
  refine ⟨?_, ?_, ?_⟩
  · exact (C7_resolution_order "server_addr" [("server_addr", PyVal.pstr "cli")]
      [("SERVER_ADDR", "env")] true none).1 (PyVal.pstr "cli") (by decide)
      (by decide) (by decide)
  · exact (((C7_resolution_order "server_addr" [("server_addr", PyVal.pstr "")]
      [("SERVER_ADDR", "env")] true none).2 (by decide)).1 "env" (by decide))
  · exact ((((C7_resolution_order "server_addr" [("server_addr", PyVal.pstr "")]
      [] true none).2 (by decide)).2 (by decide)).2 rfl rfl)


/-!
The UUIDv4 validator (`is_valid_uuid_v4`, utils.py lines 6-14 and the
identical copy in generate.py lines 20-25):

    uuid_obj = uuid.UUID(input_str, version=4)
    return str(uuid_obj) == input_str

CPython's `uuid.UUID(hex, version=4)` constructor:
* strips every occurrence of `"urn:"` and `"uuid:"`,
* strips leading/trailing `\x7b` / `\x7d` braces,
* removes every `"-"`,
* requires exactly 32 remaining characters, parses them as a hexadecimal
  integer,
* then forces the RFC 4122 variant and the version-4 bits:
  `int &= ~(0xc000 << 48); int |= 0x8000 << 48;
   int &= ~(0xf000 << 64); int |= 4 << 76`.

`str(uuid_obj)` prints the integer as 32 lowercase hex digits grouped
8-4-4-4-12 with hyphens.

One deliberate simplification, which does not change the validator on any
input: CPython's `int(hex, 16)` also tolerates surrounding whitespace, a
sign, underscores between digits and a `0x` prefix.  Our `hexParse`
rejects those forms.  Every such form contains a character that is not a
hexadecimal digit, while `str(uuid_obj)` consists of hex digits and
hyphens only (and hyphens were already removed before the integer parse),
so on any input accepted by the lenient parse but not the strict one the
final equality test fails and the validator returns false either way.
-/

/-- Hexadecimal digit test (both cases), as accepted by `int(hex, 16)`. -/
def isHexDigitChar (c : Char) : Bool :=
  (48 ≤ c.toNat && c.toNat ≤ 57) ||
  (97 ≤ c.toNat && c.toNat ≤ 102) ||
  (65 ≤ c.toNat && c.toNat ≤ 70)

/-- Value of a hexadecimal digit character. -/
def hexDigitVal (c : Char) : Nat :=
  if 48 ≤ c.toNat && c.toNat ≤ 57 then c.toNat - 48
  else if 97 ≤ c.toNat && c.toNat ≤ 102 then c.toNat - 87
  else if 65 ≤ c.toNat && c.toNat ≤ 70 then c.toNat - 55
  else 0

/-- Big-endian accumulation of hexadecimal digits, starting from `a`. -/
def hexFoldFrom (a : Nat) : List Char → Nat
  | [] => a
  | c :: cs => hexFoldFrom (16 * a + hexDigitVal c) cs

/-- Strict model of Python `int(string, 16)` (see the module comment for
why strictness is harmless here). -/
def hexParse (l : List Char) : Option Nat :=
  if !l.isEmpty && l.all isHexDigitChar then some (hexFoldFrom 0 l) else none

/-- The lowercase hexadecimal digit for `d < 16` (as produced by Python's
`"%032x" % int` formatting). -/
def natToHexDigitChar (d : Nat) : Char :=
  if d < 10 then Char.ofNat (48 + d) else Char.ofNat (87 + d)

/-- Fixed-width big-endian lowercase hexadecimal rendering: `toHexPad k n`
is the last `k` hex digits of `n` (Python `"%0*x"` padding). -/
def toHexPad : Nat → Nat → List Char
  | 0, _ => []
  | k + 1, n => toHexPad k (n / 16) ++ [natToHexDigitChar (n % 16)]

/-- The characters of `str(uuid_obj)`: `"%032x" % int` sliced
`[:8], [8:12], [12:16], [16:20], [20:]` and joined with hyphens. -/
def uuidChars (n : Nat) : List Char :=
  let h := toHexPad 32 n
  h.take 8 ++ ['-'] ++ (h.drop 8).take 4 ++ ['-'] ++ (h.drop 12).take 4 ++
    ['-'] ++ (h.drop 16).take 4 ++ ['-'] ++ h.drop 20

/-- `str(uuid_obj)` for a 128-bit integer. -/
def uuidString (n : Nat) : String := String.mk (uuidChars n)

/-- Python `str.replace(pat, repl)` on character lists, with an explicit
structural-recursion bound.  Each step consumes at least one character of
the input, so with `fuel` at least the input length (as `pyReplace`
supplies) the `0` case is never reached and the function scans left to
right replacing non-overlapping occurrences, exactly as CPython does. -/
def pyReplaceAux (pat repl : List Char) : Nat → List Char → List Char
  | _, [] => []
  | 0, l => l
  | fuel + 1, c :: cs =>
    if pat.isPrefixOf (c :: cs) then
      repl ++ pyReplaceAux pat repl fuel (cs.drop (pat.length - 1))
    else
      c :: pyReplaceAux pat repl fuel cs

/-- Python `str.replace(pat, repl)` (for a nonempty `pat`). -/
def pyReplace (pat repl l : List Char) : List Char :=
  pyReplaceAux pat repl l.length l

/-- Python `str.strip(chars)` for the brace set: drop leading and trailing
braces. -/
def pyStripBraces (l : List Char) : List Char :=
  ((l.dropWhile fun c => c = '{' || c = '}').reverse.dropWhile
    fun c => c = '{' || c = '}').reverse

/-- The string-to-integer part of `uuid.UUID(hex)`: strip `"urn:"` and
`"uuid:"`, strip braces, remove hyphens, require 32 characters, parse as
hexadecimal. -/
def pyUuidParse (s : String) : Option Nat :=
  let h1 := pyReplace "urn:".data [] s.data
  let h2 := pyReplace "uuid:".data [] h1
  let h3 := pyStripBraces h2
  let h4 := h3.filter fun c => c != '-'
  if h4.length = 32 then hexParse h4 else none

/-- The `version=4` postprocessing of `uuid.UUID.__init__`: force the
RFC 4122 variant (bits 62-63 become `10`) and the version (bits 76-79
become `0100`).  Python's `x &= ~mask` on the arbitrary-precision `int`
clears exactly the bits of `mask`; on a value below `2^128` that is
bitwise-and with the 128-bit complement of `mask`, which is how the
complement is written here. -/
def pySetVariantVersion (n : Nat) : Nat :=
  let n1 := n &&& ((2 ^ 128 - 1) ^^^ (0xc000 <<< 48))
  let n2 := n1 ||| (0x8000 <<< 48)
  let n3 := n2 &&& ((2 ^ 128 - 1) ^^^ (0xf000 <<< 64))
  n3 ||| (4 <<< 76)

/-- Embedding of `is_valid_uuid_v4` (utils.py lines 6-14): parse the
candidate with `uuid.UUID(input_str, version=4)` — any `ValueError`
yields `False` — and compare the canonical re-serialization with the
input. -/
def is_valid_uuid_v4 (s : String) : Bool :=
  match pyUuidParse s with
  | none => false
  | some n => uuidString (pySetVariantVersion n) == s

/-- Specification-side characterisation (from the spec's words): `s` is
exactly the canonical lowercase-hyphenated textual form of a version-4
random UUID, i.e. the canonical rendering of a 128-bit integer whose
version nibble (bits 76-79) is 4 and whose variant bits (bits 62-63) are
`10`. -/
def IsCanonicalUuidV4String (s : String) : Prop :=
  ∃ n : Nat, n < 2 ^ 128 ∧ n / 2 ^ 76 % 16 = 4 ∧ n / 2 ^ 62 % 4 = 2 ∧
    s = uuidString n

/-!
Bit-level facts about `pySetVariantVersion`.  The masks, written as
Python writes them, cover bits 62-63 (`0xc000 << 48`, with `0x8000 << 48`
the single bit 63) and bits 76-79 (`0xf000 << 64`, with `4 << 76` the
single bit 78).
-/

theorem mask_c000 : (0xc000 <<< 48 : Nat) = (2 ^ 2 - 1) <<< 62 := by decide

theorem mask_8000 : (0x8000 <<< 48 : Nat) = 2 ^ 63 := by decide

theorem mask_f000 : (0xf000 <<< 64 : Nat) = (2 ^ 4 - 1) <<< 76 := by decide

theorem mask_4_76 : (4 <<< 76 : Nat) = 2 ^ 78 := by decide

/-- Complete bit characterisation of the version/variant forcing: bits 63
and 78 are set, bits 62, 76, 77, 79 are cleared, every other bit below 128
is preserved and every bit from 128 on is cleared. -/
theorem testBit_pySetVariantVersion (n i : Nat) :
    (pySetVariantVersion n).testBit i =
      if i = 63 ∨ i = 78 then true
      else if i = 62 ∨ i = 76 ∨ i = 77 ∨ i = 79 then false
      else n.testBit i && decide (i < 128) := by
  unfold pySetVariantVersion
  simp only [mask_c000, mask_8000, mask_f000, mask_4_76,
    Nat.testBit_lor, Nat.testBit_land, Nat.testBit_xor,
    Nat.testBit_shiftLeft, Nat.testBit_two_pow_sub_one, Nat.testBit_two_pow]
  by_cases h63 : i = 63
  · subst h63; simp
  by_cases h78 : i = 78
  · subst h78; simp
  by_cases h62 : i = 62
  · subst h62; simp
  by_cases h76 : i = 76
  · subst h76; simp
  by_cases h77 : i = 77
  · subst h77; simp
  by_cases h79 : i = 79
  · subst h79; simp
  have e1 : (decide (62 ≤ i) && decide (i - 62 < 2)) = false := by
    rcases Nat.lt_or_ge i 62 with h | h
    · simp [Nat.not_le.mpr h]
    · have : ¬ (i - 62 < 2) := by omega
      simp [this]
  have e2 : (decide (76 ≤ i) && decide (i - 76 < 4)) = false := by
    rcases Nat.lt_or_ge i 76 with h | h
    · simp [Nat.not_le.mpr h]
    · have : ¬ (i - 76 < 4) := by omega
      simp [this]
  have e3 : decide ((63 : Nat) = i) = false := by simp [Ne.symm h63]
  have e4 : decide ((78 : Nat) = i) = false := by simp [Ne.symm h78]
  simp only [e1, e2, e3, e4, Bool.xor_false, Bool.or_false, Bool.and_assoc,
    Bool.and_self]
  have hif1 : ¬ (i = 63 ∨ i = 78) := by tauto
  have hif2 : ¬ (i = 62 ∨ i = 76 ∨ i = 77 ∨ i = 79) := by tauto
  simp [hif1, hif2]

/-- The forced value always fits in 128 bits. -/
theorem pySetVariantVersion_lt (n : Nat) : pySetVariantVersion n < 2 ^ 128 := by
  apply Nat.lt_pow_two_of_testBit
  intro i hi
  rw [testBit_pySetVariantVersion]
  have h1 : ¬ (i = 63 ∨ i = 78) := by omega
  have h2 : ¬ (i = 62 ∨ i = 76 ∨ i = 77 ∨ i = 79) := by omega
  have h3 : ¬ i < 128 := by omega
  simp [h1, h2, h3]

/-- The version nibble `(x >> 76) & 0xf` of any number in terms of its
bits 76-79. -/
theorem div_pow_mod_sixteen (m : Nat) :
    m / 2 ^ 76 % 16 =
      (if m.testBit 79 then 8 else 0) + (if m.testBit 78 then 4 else 0) +
      (if m.testBit 77 then 2 else 0) + (if m.testBit 76 then 1 else 0) := by
  have h76 : m.testBit 76 = decide (m / 2 ^ 76 % 2 = 1) := Nat.testBit_to_div_mod
  have h77 : m.testBit 77 = decide (m / 2 ^ 77 % 2 = 1) := Nat.testBit_to_div_mod
  have h78 : m.testBit 78 = decide (m / 2 ^ 78 % 2 = 1) := Nat.testBit_to_div_mod
  have h79 : m.testBit 79 = decide (m / 2 ^ 79 % 2 = 1) := Nat.testBit_to_div_mod
  have e77 : m / 2 ^ 77 = m / 2 ^ 76 / 2 := by
    rw [Nat.div_div_eq_div_mul, ← pow_succ]
  have e78 : m / 2 ^ 78 = m / 2 ^ 76 / 4 := by
    rw [Nat.div_div_eq_div_mul, show (2 : Nat) ^ 76 * 4 = 2 ^ 78 by norm_num [pow_succ]]
  have e79 : m / 2 ^ 79 = m / 2 ^ 76 / 8 := by
    rw [Nat.div_div_eq_div_mul, show (2 : Nat) ^ 76 * 8 = 2 ^ 79 by norm_num [pow_succ]]
  rw [h76, h77, h78, h79, e77, e78, e79]
  simp only [decide_eq_true_eq]
  generalize m / 2 ^ 76 = q
  split_ifs <;> omega

/-- The variant bits `(x >> 62) & 0x3` of any number in terms of its
bits 62-63. -/
theorem div_pow_mod_four (m : Nat) :
    m / 2 ^ 62 % 4 =
      (if m.testBit 63 then 2 else 0) + (if m.testBit 62 then 1 else 0) := by
  have h62 : m.testBit 62 = decide (m / 2 ^ 62 % 2 = 1) := Nat.testBit_to_div_mod
  have h63 : m.testBit 63 = decide (m / 2 ^ 63 % 2 = 1) := Nat.testBit_to_div_mod
  have e63 : m / 2 ^ 63 = m / 2 ^ 62 / 2 := by
    rw [Nat.div_div_eq_div_mul, ← pow_succ]
  rw [h62, h63, e63]
  simp only [decide_eq_true_eq]
  generalize m / 2 ^ 62 = q
  split_ifs <;> omega

/-- After the forcing, the version nibble is 4. -/
theorem pySetVariantVersion_version (n : Nat) :
    pySetVariantVersion n / 2 ^ 76 % 16 = 4 := by
  rw [div_pow_mod_sixteen]
  simp only [testBit_pySetVariantVersion]
  norm_num

/-- After the forcing, the variant bits are `10`. -/
theorem pySetVariantVersion_variant (n : Nat) :
    pySetVariantVersion n / 2 ^ 62 % 4 = 2 := by
  rw [div_pow_mod_four]
  simp only [testBit_pySetVariantVersion]
  norm_num

/-- A version nibble of 4 determines bits 76-79. -/
theorem nibble_eq_four {a b c d : Bool}
    (h : (4 : Nat) = (if a then 8 else 0) + (if b then 4 else 0) +
      (if c then 2 else 0) + (if d then 1 else 0)) :
    a = false ∧ b = true ∧ c = false ∧ d = false := by
  revert h; cases a <;> cases b <;> cases c <;> cases d <;> decide

/-- Variant bits of `10` determine bits 62-63. -/
theorem pair_eq_two {a b : Bool}
    (h : (2 : Nat) = (if a then 2 else 0) + (if b then 1 else 0)) :
    a = true ∧ b = false := by
  revert h; cases a <;> cases b <;> decide

/-- On a 128-bit value that already has version 4 and the RFC 4122
variant, the forcing is the identity. -/
theorem pySetVariantVersion_id {n : Nat} (h : n < 2 ^ 128)
    (hver : n / 2 ^ 76 % 16 = 4) (hvar : n / 2 ^ 62 % 4 = 2) :
    pySetVariantVersion n = n := by
  have h4 := div_pow_mod_sixteen n
  rw [hver] at h4
  have hbits4 := nibble_eq_four h4
  have h2 := div_pow_mod_four n
  rw [hvar] at h2
  have hbits2 := pair_eq_two h2
  apply Nat.eq_of_testBit_eq
  intro i
  rw [testBit_pySetVariantVersion]
  by_cases h1 : i = 63 ∨ i = 78
  · rw [if_pos h1]
    rcases h1 with rfl | rfl
    · exact hbits2.1.symm
    · exact hbits4.2.1.symm
  rw [if_neg h1]
  by_cases hsp : i = 62 ∨ i = 76 ∨ i = 77 ∨ i = 79
  · rw [if_pos hsp]
    rcases hsp with rfl | rfl | rfl | rfl
    · exact hbits2.2.symm
    · exact hbits4.2.2.2.symm
    · exact hbits4.2.2.1.symm
    · exact hbits4.1.symm
  rw [if_neg hsp]
  by_cases hlt : i < 128
  · simp [hlt]
  · have hn : n.testBit i = false := by
      apply Nat.testBit_lt_two_pow
      calc n < 2 ^ 128 := h
      _ ≤ 2 ^ i := Nat.pow_le_pow_right (by norm_num) (by omega)
    simp [hn, hlt]

/-!
Round-trip facts about the hexadecimal rendering and parse.
-/

theorem hexDigitVal_lt (c : Char) : hexDigitVal c < 16 := by
  unfold hexDigitVal
  split_ifs with h1 h2 h3 <;> simp_all <;> omega

theorem hexFoldFrom_lt (l : List Char) :
    ∀ a : Nat, hexFoldFrom a l < (a + 1) * 16 ^ l.length := by
  induction l with
  | nil =>
    intro a
    simp [hexFoldFrom]
  | cons c cs ih =>
    intro a
    have h2 : hexDigitVal c < 16 := hexDigitVal_lt c
    calc hexFoldFrom a (c :: cs)
        = hexFoldFrom (16 * a + hexDigitVal c) cs := rfl
    _ < (16 * a + hexDigitVal c + 1) * 16 ^ cs.length := ih _
    _ ≤ ((a + 1) * 16) * 16 ^ cs.length := by
        have : 16 * a + hexDigitVal c + 1 ≤ (a + 1) * 16 := by omega
        exact Nat.mul_le_mul_right _ this
    _ = (a + 1) * 16 ^ (c :: cs).length := by
        simp [List.length_cons, pow_succ]
        ring

theorem hexFoldFrom_append (a : Nat) (l1 l2 : List Char) :
    hexFoldFrom a (l1 ++ l2) = hexFoldFrom (hexFoldFrom a l1) l2 := by
  induction l1 generalizing a with
  | nil => rfl
  | cons c cs ih => simpa [hexFoldFrom] using ih _

theorem hexDigitVal_natToHexDigitChar {d : Nat} (h : d < 16) :
    hexDigitVal (natToHexDigitChar d) = d := by
  interval_cases d <;> decide

/-- The lowercase hex digits are hexadecimal-digit characters and are none
of the characters the UUID parse pipeline treats specially. -/
theorem natToHexDigitChar_spec {d : Nat} (h : d < 16) :
    isHexDigitChar (natToHexDigitChar d) = true ∧
    natToHexDigitChar d ≠ '-' ∧ natToHexDigitChar d ≠ ':' ∧
    natToHexDigitChar d ≠ '{' ∧ natToHexDigitChar d ≠ '}' := by
  interval_cases d <;> decide

theorem toHexPad_length (k : Nat) : ∀ n : Nat, (toHexPad k n).length = k := by
  induction k with
  | zero => intro n; rfl
  | succ k ih => intro n; simp [toHexPad, ih]

theorem toHexPad_mem {k n : Nat} {c : Char} (hc : c ∈ toHexPad k n) :
    isHexDigitChar c = true ∧ c ≠ '-' ∧ c ≠ ':' ∧ c ≠ '{' ∧ c ≠ '}' := by
  induction k generalizing n with
  | zero => simp [toHexPad] at hc
  | succ k ih =>
    simp only [toHexPad, List.mem_append, List.mem_singleton] at hc
    rcases hc with hc | hc
    · exact ih hc
    · subst hc
      exact natToHexDigitChar_spec (Nat.mod_lt _ (by norm_num))

theorem hexFoldFrom_toHexPad (k : Nat) : ∀ n a : Nat,
    hexFoldFrom a (toHexPad k n) = a * 16 ^ k + n % 16 ^ k := by
  induction k with
  | zero => intro n a; simp [toHexPad, hexFoldFrom, Nat.mod_one]
  | succ k ih =>
    intro n a
    rw [toHexPad, hexFoldFrom_append, ih]
    have hstep : ∀ (x : Nat) (c : Char), hexFoldFrom x [c] = 16 * x + hexDigitVal c :=
      fun x c => rfl
    rw [hstep, hexDigitVal_natToHexDigitChar (Nat.mod_lt _ (by norm_num))]
    have hm : n % 16 ^ (k + 1) = n % 16 + 16 * (n / 16 % 16 ^ k) := by
      rw [pow_succ']
      exact Nat.mod_mul
    rw [hm, pow_succ]
    ring

theorem hexParse_some_lt {l : List Char} {v : Nat} (h : hexParse l = some v) :
    v < 16 ^ l.length := by
  unfold hexParse at h
  split_ifs at h with hcond
  · have hv : hexFoldFrom 0 l = v := by
      injection h
    calc v = hexFoldFrom 0 l := hv.symm
    _ < (0 + 1) * 16 ^ l.length := hexFoldFrom_lt l 0
    _ = 16 ^ l.length := by ring

theorem sixteen_pow_32 : (16 : Nat) ^ 32 = 2 ^ 128 := by
  rw [show (16 : Nat) = 2 ^ 4 from rfl, ← pow_mul]

theorem hexParse_toHexPad {n : Nat} (h : n < 2 ^ 128) :
    hexParse (toHexPad 32 n) = some n := by
  have hlen : (toHexPad 32 n).length = 32 := toHexPad_length 32 n
  have hne : (toHexPad 32 n).isEmpty = false := by
    rw [List.isEmpty_eq_false]
    intro he
    rw [he] at hlen
    simp at hlen
  have hall : (toHexPad 32 n).all isHexDigitChar = true := by
    rw [List.all_eq_true]
    intro c hc
    exact (toHexPad_mem hc).1
  have hfold : hexFoldFrom 0 (toHexPad 32 n) = n := by
    rw [hexFoldFrom_toHexPad 32 n 0, sixteen_pow_32]
    simpa using Nat.mod_eq_of_lt h
  simp [hexParse, hne, hall, hfold]

/-!
The canonical rendering survives the parse pipeline unchanged: it
contains no `":"` (so the `"urn:"` / `"uuid:"` replacements do nothing),
no braces (so the strip does nothing), and removing its hyphens recovers
the 32 hex digits.  The two lemmas about the hyphenated shape are stated
over an arbitrary digit list `h` first, to keep `toHexPad` opaque.
-/

theorem hyphenated_mem {h : List Char} {c : Char}
    (hc : c ∈ h.take 8 ++ ['-'] ++ (h.drop 8).take 4 ++ ['-'] ++
      (h.drop 12).take 4 ++ ['-'] ++ (h.drop 16).take 4 ++ ['-'] ++ h.drop 20) :
    c = '-' ∨ c ∈ h := by
  simp only [List.mem_append, List.mem_singleton] at hc
  rcases hc with ((((((((hc | hc) | hc) | hc) | hc) | hc) | hc) | hc) | hc)
  · exact Or.inr (List.mem_of_mem_take hc)
  · exact Or.inl hc
  · exact Or.inr (List.mem_of_mem_drop (List.mem_of_mem_take hc))
  · exact Or.inl hc
  · exact Or.inr (List.mem_of_mem_drop (List.mem_of_mem_take hc))
  · exact Or.inl hc
  · exact Or.inr (List.mem_of_mem_drop (List.mem_of_mem_take hc))
  · exact Or.inl hc
  · exact Or.inr (List.mem_of_mem_drop hc)

theorem hyphenated_filter {h : List Char} (hkeep : ∀ c ∈ h, (c != '-') = true) :
    (h.take 8 ++ ['-'] ++ (h.drop 8).take 4 ++ ['-'] ++
      (h.drop 12).take 4 ++ ['-'] ++ (h.drop 16).take 4 ++ ['-'] ++
      h.drop 20).filter (fun c => c != '-') = h := by
  have hself : ∀ (l : List Char), (∀ c ∈ l, c ∈ h) →
      l.filter (fun c => c != '-') = l := by
    intro l hl
    rw [List.filter_eq_self]
    intro c hc
    exact hkeep c (hl c hc)
  simp only [List.filter_append]
  rw [hself _ fun c hc => List.mem_of_mem_take hc,
    hself _ fun c hc => List.mem_of_mem_drop (List.mem_of_mem_take hc),
    hself _ fun c hc => List.mem_of_mem_drop (List.mem_of_mem_take hc),
    hself _ fun c hc => List.mem_of_mem_drop (List.mem_of_mem_take hc),
    hself _ fun c hc => List.mem_of_mem_drop hc]
  rw [show (['-'].filter fun c => c != '-') = [] from rfl]
  have e8 : (h.drop 8).drop 4 = h.drop 12 := by rw [List.drop_drop]
  have e12 : (h.drop 12).drop 4 = h.drop 16 := by rw [List.drop_drop]
  have e16 : (h.drop 16).drop 4 = h.drop 20 := by rw [List.drop_drop]
  simp only [List.nil_append, List.append_assoc]
  conv_rhs => rw [← List.take_append_drop 8 h]
  congr 1
  conv_rhs => rw [← List.take_append_drop 4 (h.drop 8), e8]
  congr 1
  conv_rhs => rw [← List.take_append_drop 4 (h.drop 12), e12]
  congr 1
  conv_rhs => rw [← List.take_append_drop 4 (h.drop 16), e16]

/-- The shape of `uuidChars` with the digit list named, for rewriting. -/
theorem uuidChars_eq (n : Nat) :
    uuidChars n = (toHexPad 32 n).take 8 ++ ['-'] ++
      ((toHexPad 32 n).drop 8).take 4 ++ ['-'] ++
      ((toHexPad 32 n).drop 12).take 4 ++ ['-'] ++
      ((toHexPad 32 n).drop 16).take 4 ++ ['-'] ++ (toHexPad 32 n).drop 20 := rfl

theorem uuidChars_mem {n : Nat} {c : Char} (hc : c ∈ uuidChars n) :
    c ≠ ':' ∧ c ≠ '{' ∧ c ≠ '}' := by
  rw [uuidChars_eq] at hc
  rcases hyphenated_mem hc with rfl | hc
  · exact ⟨by decide, by decide, by decide⟩
  · have hm := toHexPad_mem hc
    exact ⟨hm.2.2.1, hm.2.2.2.1, hm.2.2.2.2⟩

theorem uuidChars_filter (n : Nat) :
    (uuidChars n).filter (fun c => c != '-') = toHexPad 32 n := by
  rw [uuidChars_eq]
  apply hyphenated_filter
  intro c hc
  simpa using (toHexPad_mem hc).2.1

theorem isPrefixOf_mem {p l : List Char} (h : p.isPrefixOf l = true)
    {x : Char} (hx : x ∈ p) : x ∈ l := by
  induction p generalizing l with
  | nil => simp at hx
  | cons a as ih =>
    cases l with
    | nil => simp [List.isPrefixOf] at h
    | cons b bs =>
      simp only [List.isPrefixOf, Bool.and_eq_true, beq_iff_eq] at h
      rcases List.mem_cons.mp hx with rfl | hx
      · rw [h.1]
        exact List.mem_cons_self _ _
      · exact List.mem_cons_of_mem _ (ih h.2 hx)

theorem pyReplaceAux_no_match {pat repl : List Char} {c : Char} (hc : c ∈ pat) :
    ∀ (fuel : Nat) (l : List Char), c ∉ l → pyReplaceAux pat repl fuel l = l := by
  intro fuel
  induction fuel with
  | zero =>
    intro l _
    cases l <;> rfl
  | succ fuel ih =>
    intro l hl
    cases l with
    | nil => rfl
    | cons b bs =>
      have hnp : pat.isPrefixOf (b :: bs) = false := by
        cases hp : pat.isPrefixOf (b :: bs)
        · rfl
        · exact absurd (isPrefixOf_mem hp hc) hl
      show (if pat.isPrefixOf (b :: bs) = true then _ else
        b :: pyReplaceAux pat repl fuel bs) = b :: bs
      rw [hnp]
      simp only [Bool.false_eq_true, if_false]
      rw [ih bs fun hmem => hl (List.mem_cons_of_mem _ hmem)]

theorem pyReplace_no_match {pat repl l : List Char} {c : Char}
    (hc : c ∈ pat) (hl : c ∉ l) : pyReplace pat repl l = l :=
  pyReplaceAux_no_match hc _ l hl

theorem dropWhile_eq_self_of_false {p : Char → Bool} {l : List Char}
    (h : ∀ c ∈ l, p c = false) : l.dropWhile p = l := by
  cases l with
  | nil => rfl
  | cons a as =>
    rw [List.dropWhile_cons]
    simp [h a (List.mem_cons_self a as)]

theorem pyStripBraces_eq_self {l : List Char}
    (h : ∀ c ∈ l, c ≠ '{' ∧ c ≠ '}') : pyStripBraces l = l := by
  have hb : ∀ c ∈ l, ((c = '{' || c = '}') : Bool) = false := by
    intro c hc
    have := h c hc
    simp [this.1, this.2]
  unfold pyStripBraces
  rw [dropWhile_eq_self_of_false hb]
  rw [dropWhile_eq_self_of_false fun c hc => hb c (List.mem_reverse.mp hc)]
  exact List.reverse_reverse l

/-- The canonical rendering of any 128-bit value parses back to that
value. -/
theorem pyUuidParse_uuidString {n : Nat} (h : n < 2 ^ 128) :
    pyUuidParse (uuidString n) = some n := by
  have hcolon : ':' ∉ uuidChars n := fun hc => (uuidChars_mem hc).1 rfl
  have hbrace : ∀ c ∈ uuidChars n, c ≠ '{' ∧ c ≠ '}' := by
    intro c hc
    exact ⟨(uuidChars_mem hc).2.1, (uuidChars_mem hc).2.2⟩
  have hdata : (uuidString n).data = uuidChars n := rfl
  have r1 : pyReplace "urn:".data [] (uuidChars n) = uuidChars n :=
    pyReplace_no_match (by decide) hcolon
  have r2 : pyReplace "uuid:".data [] (uuidChars n) = uuidChars n :=
    pyReplace_no_match (by decide) hcolon
  have r3 : pyStripBraces (uuidChars n) = uuidChars n := pyStripBraces_eq_self hbrace
  have hlen : ((uuidChars n).filter fun c => c != '-').length = 32 := by
    rw [uuidChars_filter]
    exact toHexPad_length 32 n
  unfold pyUuidParse
  rw [hdata]
  simp only [r1, r2, r3, uuidChars_filter, toHexPad_length]
  rw [if_pos trivial]
  exact hexParse_toHexPad h

/-- C1: `is_valid_uuid_v4(candidate)` returns true exactly when the
candidate is the canonical lowercase-hyphenated textual form of a
version-4 UUID (a 128-bit value with version nibble 4 and RFC 4122
variant bits `10`); any parse failure, non-canonical formatting or
version/variant mismatch yields false, and when the result is true the
re-serialization of the parsed identifier (which is what the candidate is
compared against) is exactly the input string. -/
theorem C1_uuid_validator (s : String) :
    is_valid_uuid_v4 s = true ↔ IsCanonicalUuidV4String s := by
  constructor
  · intro hv
    unfold is_valid_uuid_v4 at hv
    cases hp : pyUuidParse s with
    | none => rw [hp] at hv; cases hv
    | some n =>
      rw [hp] at hv
      have hs : uuidString (pySetVariantVersion n) = s := eq_of_beq hv
      exact ⟨pySetVariantVersion n, pySetVariantVersion_lt n,
        pySetVariantVersion_version n, pySetVariantVersion_variant n, hs.symm⟩
  · rintro ⟨n, hlt, hver, hvar, rfl⟩
    unfold is_valid_uuid_v4
    rw [pyUuidParse_uuidString hlt]
    show (uuidString (pySetVariantVersion n) == uuidString n) = true
    rw [pySetVariantVersion_id hlt hver hvar]
    simp

/-!
Client removal (`remove_client`, generate.py lines 201-222).

The Redis set `ssh-server:users` is modelled as a `List String` whose
order is the iteration order of `smembers`; `srem` of one member is
`List.erase` (set members are unique, so erasing the first occurrence is
faithful).  Deletion of the artifact file `<path>/<uuid>.json` is an
external effect whose success is supplied by the `deleteOk` flag; the
message printed by the `except` branch is returned in the third (log)
component.
-/

/-- Python `str.startswith` (`m.startswith(client_uuid)`). -/
def pyStartsWith (s pre : String) : Bool :=
  pre.data.isPrefixOf s.data

/-- Failure modes of `remove_client`: the `RuntimeError` raised for a
non-UUIDv4 argument and the `RuntimeError` "Cannot find the specified
client". -/
inductive RemErr where
  | invalidUuid
  | notFound
deriving DecidableEq

/-- Embedding of `remove_client(path, client_uuid)`: validate the UUID,
scan `smembers` for the first member satisfying
`m.startswith(client_uuid)` (the `for`/`break` loop is `List.find?`),
raise when none matches, otherwise `srem` the found member, `save`, and
attempt to delete the artifact file, logging (never raising) on deletion
failure.  Result components: operation outcome, resulting store, log
lines. -/
def remove_client (store : List String) (client_uuid : String) (deleteOk : Bool) :
    Except RemErr Unit × List String × List String :=
  if ¬ is_valid_uuid_v4 client_uuid then (.error .invalidUuid, store, [])
  else
    match store.find? (fun m => pyStartsWith m client_uuid) with
    | none => (.error .notFound, store, [])
    | some m =>
      (.ok (), store.erase m,
        if deleteOk then []
        else ["Could not delete the configuration file for the specified user:"])

/-- C2 counterexample: with the valid identity
`f47ac10b-58cc-4372-a567-0e02b2c3d479` and a store whose only member
appends `"XY"` (not `"::"`) to that identity, no member has
`identity ++ "::"` as a prefix, so the claim predicts a not-found
failure with the member never selected for removal; the code instead
succeeds and removes that member. -/
theorem C2_counterexample :
    remove_client ["f47ac10b-58cc-4372-a567-0e02b2c3d479XY"]
      "f47ac10b-58cc-4372-a567-0e02b2c3d479" true
      = (Except.ok (), [], []) ∧
    ¬ (∃ m ∈ ["f47ac10b-58cc-4372-a567-0e02b2c3d479XY"],
        ("f47ac10b-58cc-4372-a567-0e02b2c3d479" ++ "::").data.isPrefixOf m.data
          = true) := by
  constructor
  · rfl
  · decide

/-- C2 amended: the remove operation scans the registered-clients set for
the first member that has the identity itself as a prefix (Python
`startswith(identity)`, with no `"::"` separator required); it removes
that member when one exists and fails with a not-found error when no
member starts with the identity. -/
theorem C2_amended_remove_scan (store : List String) (u : String) (dOk : Bool)
    (hvalid : is_valid_uuid_v4 u = true) :
    ((∀ m ∈ store, pyStartsWith m u = false) →
      remove_client store u dOk = (Except.error RemErr.notFound, store, [])) ∧
    (∀ m, store.find? (fun x => pyStartsWith x u) = some m →
      pyStartsWith m u = true ∧ m ∈ store ∧
      (remove_client store u dOk).1 = Except.ok () ∧
      (remove_client store u dOk).2.1 = store.erase m) := by
  constructor
  · intro hnone
    have hfind : store.find? (fun x => pyStartsWith x u) = none := by
      rw [List.find?_eq_none]
      intro x hx
      simp [hnone x hx]
    simp [remove_client, hvalid, hfind]
  · intro m hm
    have hp := List.find?_some hm
    refine ⟨by simpa using hp, List.mem_of_find?_eq_some hm, ?_, ?_⟩ <;>
      simp [remove_client, hvalid, hm]

/-- Witness for C2's amended statement: identity
`f47ac10b-58cc-4372-a567-0e02b2c3d479`, a store whose first matching
member is the composite with key `"A"`; the scan removes exactly that
member, and on a store with no matching member the call fails not-found. -/
theorem C2_amended_remove_scan_witness :
    (remove_client ["zzz"] "f47ac10b-58cc-4372-a567-0e02b2c3d479" true
      = (Except.error RemErr.notFound, ["zzz"], [])) ∧
    (remove_client ["zzz", "f47ac10b-58cc-4372-a567-0e02b2c3d479::A"]
        "f47ac10b-58cc-4372-a567-0e02b2c3d479" true).2.1 = ["zzz"] := by
  constructor
  · exact (C2_amended_remove_scan ["zzz"] "f47ac10b-58cc-4372-a567-0e02b2c3d479"
      true (by rfl)).1 (by decide)
  · exact ((C2_amended_remove_scan ["zzz", "f47ac10b-58cc-4372-a567-0e02b2c3d479::A"]
      "f47ac10b-58cc-4372-a567-0e02b2c3d479" true (by rfl)).2
      "f47ac10b-58cc-4372-a567-0e02b2c3d479::A" (by rfl)).2.2.2

/-- C4: with a valid identity, `remove_client` fails fatally with the
not-found error and leaves the store unchanged when no member matches;
when a member matches, the store removal succeeds (the overall outcome is
`ok`), and a failure to delete the artifact file afterwards only adds a
log line — the outcome is `ok` for either value of `deleteOk`. -/
theorem C4_remove_error_handling (store : List String) (u : String) (dOk : Bool)
    (hvalid : is_valid_uuid_v4 u = true) :
    (store.find? (fun x => pyStartsWith x u) = none →
      remove_client store u dOk = (Except.error RemErr.notFound, store, [])) ∧
    (∀ m, store.find? (fun x => pyStartsWith x u) = some m →
      (remove_client store u dOk).1 = Except.ok () ∧
      (remove_client store u dOk).2.1 = store.erase m ∧
      (dOk = false → (remove_client store u dOk).2.2
        = ["Could not delete the configuration file for the specified user:"])) := by
  constructor
  · intro hfind
    simp [remove_client, hvalid, hfind]
  · intro m hm
    refine ⟨?_, ?_, ?_⟩
    · simp [remove_client, hvalid, hm]
    · simp [remove_client, hvalid, hm]
    · intro hdel
      simp [remove_client, hvalid, hm, hdel]

/-- Witness for C4: on an empty store the call fails not-found and
mutates nothing; on a store containing the composite record, removal
succeeds even though the artifact deletion fails (`deleteOk = false`),
leaving only the log line. -/
theorem C4_remove_error_handling_witness :
    (remove_client [] "f47ac10b-58cc-4372-a567-0e02b2c3d479" true
      = (Except.error RemErr.notFound, [], [])) ∧
    (remove_client ["f47ac10b-58cc-4372-a567-0e02b2c3d479::A"]
        "f47ac10b-58cc-4372-a567-0e02b2c3d479" false).1 = Except.ok () := by
  constructor
  · exact (C4_remove_error_handling [] "f47ac10b-58cc-4372-a567-0e02b2c3d479"
      true (by rfl)).1 (by rfl)
  · exact ((C4_remove_error_handling ["f47ac10b-58cc-4372-a567-0e02b2c3d479::A"]
      "f47ac10b-58cc-4372-a567-0e02b2c3d479" false (by rfl)).2
      "f47ac10b-58cc-4372-a567-0e02b2c3d479::A" (by rfl)).1

/-- C10: one `remove_client` call removes at most one member.  When the
scan finds its first matching member `m0`, the resulting store is exactly
`store.erase m0` — one element shorter — and every other member, in
particular every other member that also starts with the identity, is
still in the resulting store. -/
theorem C10_remove_at_most_one (store : List String) (u : String) (dOk : Bool)
    (hvalid : is_valid_uuid_v4 u = true) :
    ∀ m0, store.find? (fun x => pyStartsWith x u) = some m0 →
      (remove_client store u dOk).2.1 = store.erase m0 ∧
      (remove_client store u dOk).2.1.length = store.length - 1 ∧
      (∀ m ∈ store, m ≠ m0 → m ∈ (remove_client store u dOk).2.1) := by
  intro m0 hm0
  have hmem : m0 ∈ store := List.mem_of_find?_eq_some hm0
  have hstore : (remove_client store u dOk).2.1 = store.erase m0 := by
    simp [remove_client, hvalid, hm0]
  refine ⟨hstore, ?_, ?_⟩
  · rw [hstore]
    exact List.length_erase_of_mem hmem
  · intro m hm hne
    rw [hstore]
    exact (List.mem_erase_of_ne hne).mpr hm

/-- Witness for C10: with two members sharing the matching identity
prefix, the call removes only the first; the second remains. -/
theorem C10_remove_at_most_one_witness :
    (remove_client ["f47ac10b-58cc-4372-a567-0e02b2c3d479::A",
        "f47ac10b-58cc-4372-a567-0e02b2c3d479::B"]
      "f47ac10b-58cc-4372-a567-0e02b2c3d479" true).2.1
      = ["f47ac10b-58cc-4372-a567-0e02b2c3d479::B"] ∧
    "f47ac10b-58cc-4372-a567-0e02b2c3d479::B" ∈
      (remove_client ["f47ac10b-58cc-4372-a567-0e02b2c3d479::A",
          "f47ac10b-58cc-4372-a567-0e02b2c3d479::B"]
        "f47ac10b-58cc-4372-a567-0e02b2c3d479" true).2.1 := by
  constructor
  · have h := (C10_remove_at_most_one
      ["f47ac10b-58cc-4372-a567-0e02b2c3d479::A",
        "f47ac10b-58cc-4372-a567-0e02b2c3d479::B"]
      "f47ac10b-58cc-4372-a567-0e02b2c3d479" true (by rfl)
      "f47ac10b-58cc-4372-a567-0e02b2c3d479::A" (by rfl)).1
    rw [h]
    rfl
  · exact (C10_remove_at_most_one
      ["f47ac10b-58cc-4372-a567-0e02b2c3d479::A",
        "f47ac10b-58cc-4372-a567-0e02b2c3d479::B"]
      "f47ac10b-58cc-4372-a567-0e02b2c3d479" true (by rfl)
      "f47ac10b-58cc-4372-a567-0e02b2c3d479::A" (by rfl)).2.2
      "f47ac10b-58cc-4372-a567-0e02b2c3d479::B" (by decide) (by decide)

/-!
Provisioning (`generate`, generate.py lines 130-198).

External effects are made explicit:
* `GenEnv.keyFiles` — the contents of the files matched by the glob
  `host_key_path + "*_key.pub"`, in glob order;
* `GenEnv.templateFile` — the contents of the template file, `none` when
  opening/reading it raises;
* `GenEnv.privKey` / `GenEnv.pubKey` — the serialized halves of the
  freshly generated Ed25519 keypair (key generation itself cannot fail);
* `GenEnv.freshUuid` — the value of `str(uuid.uuid4())` drawn when no
  explicit UUID is supplied;
* `GenEnv.writeOk` — whether writing the artifact file succeeds.
The Redis `save()` checkpoint is modelled as always succeeding; no claim
concerns its failure behaviour.  The returned event trace records the
order of the externally visible effects.
-/

/-- Python `str.endswith` (`host_key_path.endswith("/")`). -/
def pyEndsWith (s suf : String) : Bool :=
  suf.data.isSuffixOf s.data

/-- One escaped character of Python `json.dumps` (default
`ensure_ascii=True`): the two-character escapes, `\\u00XX` for remaining
control characters, `\\uXXXX` (with a surrogate pair above the BMP) for
non-ASCII, and the character itself for printable ASCII. -/
def jsonEscapeChar (c : Char) : List Char :=
  if c = '"' then ['\\', '"']
  else if c = '\\' then ['\\', '\\']
  else if c = '\n' then ['\\', 'n']
  else if c = '\r' then ['\\', 'r']
  else if c = '\t' then ['\\', 't']
  else if c.toNat = 8 then ['\\', 'b']
  else if c.toNat = 12 then ['\\', 'f']
  else if c.toNat < 32 ∨ c.toNat > 126 then
    if c.toNat ≤ 0xFFFF then '\\' :: 'u' :: toHexPad 4 c.toNat
    else
      ('\\' :: 'u' :: toHexPad 4 (0xD800 + (c.toNat - 0x10000) / 0x400)) ++
        ('\\' :: 'u' :: toHexPad 4 (0xDC00 + (c.toNat - 0x10000) % 0x400))
  else [c]

/-- Python `json.dumps` on a string. -/
def jsonDumps (s : String) : String :=
  String.mk ('"' :: (s.data.map jsonEscapeChar).flatten ++ ['"'])

/-- Python `json.dumps` on a list of strings (default separator `", "`). -/
def jsonDumpsList (l : List String) : String :=
  "[" ++ String.intercalate ", " (l.map jsonDumps) ++ "]"

/-- First character of a Python `string.Template` identifier. -/
def isIdHead (c : Char) : Bool :=
  c = '_' || ('a' ≤ c && c ≤ 'z') || ('A' ≤ c && c ≤ 'Z')

/-- Later character of a Python `string.Template` identifier. -/
def isIdChar (c : Char) : Bool :=
  isIdHead c || ('0' ≤ c && c ≤ '9')

/-- Python `string.Template(...).substitute(mapping)` scanning, with an
explicit structural-recursion bound: `$$` is an escaped dollar,
`$identifier` and `$\x7bidentifier\x7d` substitute (a missing mapping key
raises `KeyError`, modelled as `none`), any other `$` occurrence raises
`ValueError` (also `none`).  Every step consumes at least one input
character and one unit of fuel, so with fuel at least the input length
(as `pySubstitute` supplies) the `0` case is never reached. -/
def pySubstAux (vars : List (String × String)) : Nat → List Char → Option (List Char)
  | _, [] => some []
  | 0, _ => none
  | fuel + 1, '$' :: rest =>
    match rest with
    | '$' :: rest2 => (pySubstAux vars fuel rest2).map (fun t => '$' :: t)
    | '{' :: rest2 =>
      let name := rest2.takeWhile isIdChar
      if name.isEmpty then none
      else if isIdHead (name.headD ' ') then
        match rest2.drop name.length with
        | '}' :: after =>
          match lookupEnv (String.mk name) vars with
          | some v => (pySubstAux vars fuel after).map (fun t => v.data ++ t)
          | none => none
        | _ => none
      else none
    | c :: rest2 =>
      if isIdHead c then
        let name := (c :: rest2).takeWhile isIdChar
        match lookupEnv (String.mk name) vars with
        | some v =>
          (pySubstAux vars fuel ((c :: rest2).drop name.length)).map
            (fun t => v.data ++ t)
        | none => none
      else none
    | [] => none
  | fuel + 1, c :: rest => (pySubstAux vars fuel rest).map (fun t => c :: t)

/-- Python `Template(tmpl).substitute(vars)`. -/
def pySubstitute (tmpl : String) (vars : List (String × String)) : Option String :=
  (pySubstAux vars tmpl.data.length tmpl.data).map String.mk

/-- The externally supplied data consumed by one `generate` run. -/
structure GenEnv where
  freshUuid : String
  keyFiles : List String
  templateFile : Option String
  privKey : String
  pubKey : String
  writeOk : Bool

/-- Externally visible effects of `generate`, in order of occurrence. -/
inductive Event where
  | readKeyFile
  | readTemplate
  | genKeypair
  | storeAdd
  | render
  | fileWrite
  | storeSave
deriving DecidableEq

/-- Failure modes of `generate`: invalid UUID, a `get_variable` raise, the
two `assert`s, an unreadable template, the duplicate-composite raise, a
substitution exception, and an artifact-write failure. -/
inductive GenErr where
  | invalidUuid
  | missingConfig
  | pathAssertFail
  | noHostKeys
  | templateUnreadable
  | duplicate
  | substFail
  | writeFail
deriving DecidableEq

/-- One strict configuration read inside `generate`
(`get_variable(name, args, strict=True)`); with `strict` and no default
the result is either a raise or an actual string. -/
def getConfigVar (name : String) (args : List (String × PyVal))
    (osEnv : List (String × String)) : Except GenErr String :=
  match get_variable name args osEnv true none with
  | .ok (some v) => .ok v
  | _ => .error .missingConfig

/-- Embedding of `generate(path, args, client_uuid)`.  Returns the
operation outcome, the resulting registered-clients set and the trace of
externally visible effects.  The four configuration reads are pure, so
matching on all four at once is observationally the sequential Python
order (any failure among them yields the same `missingConfig` outcome
with no prior effect). -/
def generate (env : GenEnv) (args : List (String × PyVal))
    (osEnv : List (String × String)) (store : List String)
    (clientUuid : Option String) :
    Except GenErr String × List String × List Event :=
  let cu := clientUuid.getD env.freshUuid
  if ¬ is_valid_uuid_v4 cu then (.error .invalidUuid, store, [])
  else
    match getConfigVar "server_addr" args osEnv,
        getConfigVar "server_port" args osEnv,
        getConfigVar "host_key_path" args osEnv,
        getConfigVar "template_path" args osEnv with
    | .ok server_addr, .ok server_port, .ok host_key_path, .ok _template_path =>
      if ¬ pyEndsWith host_key_path "/" then (.error .pathAssertFail, store, [])
      else
        let host_keys := env.keyFiles.map processHostKey
        let tr0 := env.keyFiles.map (fun _ => Event.readKeyFile)
        if host_keys.length = 0 then (.error .noHostKeys, store, tr0)
        else
          match env.templateFile with
          | none => (.error .templateUnreadable, store, tr0)
          | some tmpl =>
            let tr1 := tr0 ++ [Event.readTemplate, Event.genKeypair, Event.storeAdd]
            let client_string := cu ++ "::" ++ env.pubKey
            if client_string ∈ store then (.error .duplicate, store, tr1)
            else
              let store2 := store ++ [client_string]
              let tr2 := tr1 ++ [Event.render]
              match pySubstitute tmpl
                  [("server_addr", server_addr), ("server_port", server_port),
                   ("client_uuid", cu), ("private_key", jsonDumps env.privKey),
                   ("host_keys", jsonDumpsList host_keys)] with
              | none => (.error .substFail, store2, tr2)
              | some _rendered =>
                let tr3 := tr2 ++ [Event.fileWrite]
                if env.writeOk = false then (.error .writeFail, store2, tr3)
                else (.ok cu, store2, tr3 ++ [Event.storeSave])
    | _, _, _, _ => (.error .missingConfig, store, [])

/-- C3: once `generate` reaches the registration step (valid identifier,
configuration resolved, trailing-slash assert passed, host keys found,
template readable), it inserts the single composite string
`identity ++ "::" ++ public-key` into the registered-clients set, and
fails with the duplicate error — performing none of the remaining steps
(no substitution, no artifact write, no store save) and leaving the set
unchanged — exactly when that identical composite string is already a
member; when the composite is not a member the duplicate check never
fires (whatever other members, e.g. same identity with another key, the
set holds) and the composite is inserted. -/
theorem C3_add_duplicate_detection (env : GenEnv) (args : List (String × PyVal))
    (osEnv : List (String × String)) (store : List String)
    (clientUuid : Option String) (sa sp hk tp tmpl : String)
    (hu : is_valid_uuid_v4 (clientUuid.getD env.freshUuid) = true)
    (hsa : getConfigVar "server_addr" args osEnv = .ok sa)
    (hsp : getConfigVar "server_port" args osEnv = .ok sp)
    (hhk : getConfigVar "host_key_path" args osEnv = .ok hk)
    (htp : getConfigVar "template_path" args osEnv = .ok tp)
    (hslash : pyEndsWith hk "/" = true)
    (hkeys : env.keyFiles ≠ [])
    (htmpl : env.templateFile = some tmpl) :
    (clientUuid.getD env.freshUuid ++ "::" ++ env.pubKey ∈ store →
      (generate env args osEnv store clientUuid).1 = .error .duplicate ∧
      (generate env args osEnv store clientUuid).2.1 = store ∧
      Event.render ∉ (generate env args osEnv store clientUuid).2.2 ∧
      Event.fileWrite ∉ (generate env args osEnv store clientUuid).2.2 ∧
      Event.storeSave ∉ (generate env args osEnv store clientUuid).2.2) ∧
    (clientUuid.getD env.freshUuid ++ "::" ++ env.pubKey ∉ store →
      (generate env args osEnv store clientUuid).1 ≠ .error .duplicate ∧
      clientUuid.getD env.freshUuid ++ "::" ++ env.pubKey ∈
        (generate env args osEnv store clientUuid).2.1) := by
  have hlen : ¬ (env.keyFiles.map processHostKey).length = 0 := by
    simp [List.length_eq_zero, hkeys]
  constructor
  · intro hmem
    simp only [generate, hu, hsa, hsp, hhk, htp, hslash, htmpl, hlen,
      not_true_eq_false, Bool.false_eq_true, if_false, if_neg, if_pos, hmem,
      if_true, List.mem_append, List.mem_map, List.mem_singleton,
      List.mem_cons, not_false_eq_true]
    simp
  · intro hmem
    simp only [generate, hu, hsa, hsp, hhk, htp, hslash, htmpl, hlen,
      not_true_eq_false, Bool.false_eq_true, if_false, if_neg, if_pos, hmem,
      if_true, List.mem_append, List.mem_singleton, List.mem_cons]
    constructor
    · split
      · simp
      · split <;> simp
    · split
      · simp
      · split <;> simp

/-- Witness for C3: with the composite already registered the add fails
with the duplicate error; starting from the empty set the composite is
inserted. -/
theorem C3_add_duplicate_detection_witness :
    (generate ⟨"x", ["k"], some "t", "P", "B", true⟩
        [("server_addr", PyVal.pstr "s"), ("server_port", PyVal.pint 1),
         ("host_key_path", PyVal.pstr "h/"), ("template_path", PyVal.pstr "t")]
        [] ["f47ac10b-58cc-4372-a567-0e02b2c3d479::B"]
        (some "f47ac10b-58cc-4372-a567-0e02b2c3d479")).1
      = Except.error GenErr.duplicate ∧
    "f47ac10b-58cc-4372-a567-0e02b2c3d479::B" ∈
      (generate ⟨"x", ["k"], some "t", "P", "B", true⟩
        [("server_addr", PyVal.pstr "s"), ("server_port", PyVal.pint 1),
         ("host_key_path", PyVal.pstr "h/"), ("template_path", PyVal.pstr "t")]
        [] [] (some "f47ac10b-58cc-4372-a567-0e02b2c3d479")).2.1 := by
  constructor
  · exact ((C3_add_duplicate_detection ⟨"x", ["k"], some "t", "P", "B", true⟩
      [("server_addr", PyVal.pstr "s"), ("server_port", PyVal.pint 1),
       ("host_key_path", PyVal.pstr "h/"), ("template_path", PyVal.pstr "t")]
      [] ["f47ac10b-58cc-4372-a567-0e02b2c3d479::B"]
      (some "f47ac10b-58cc-4372-a567-0e02b2c3d479")
      "s" "1" "h/" "t" "t" (by rfl) (by rfl) (by rfl) (by rfl) (by rfl)
      (by rfl) (by decide) (by rfl)).1 (by decide)).1
  · exact ((C3_add_duplicate_detection ⟨"x", ["k"], some "t", "P", "B", true⟩
      [("server_addr", PyVal.pstr "s"), ("server_port", PyVal.pint 1),
       ("host_key_path", PyVal.pstr "h/"), ("template_path", PyVal.pstr "t")]
      [] [] (some "f47ac10b-58cc-4372-a567-0e02b2c3d479")
      "s" "1" "h/" "t" "t" (by rfl) (by rfl) (by rfl) (by rfl) (by rfl)
      (by rfl) (by decide) (by rfl)).2 (by decide)).2

/-- C6: when the glob finds no host-key files the collected list is empty
and `generate` fails before generating a keypair, before registering any
record and before writing any artifact (the store is returned unchanged
and none of those effects appears in the trace); conversely a successful
run implies at least one host-key file was found. -/
theorem C6_empty_hostkeys (env : GenEnv) (args : List (String × PyVal))
    (osEnv : List (String × String)) (store : List String)
    (clientUuid : Option String) :
    (env.keyFiles = [] →
      (∃ e, (generate env args osEnv store clientUuid).1 = Except.error e) ∧
      (generate env args osEnv store clientUuid).2.1 = store ∧
      Event.genKeypair ∉ (generate env args osEnv store clientUuid).2.2 ∧
      Event.storeAdd ∉ (generate env args osEnv store clientUuid).2.2 ∧
      Event.fileWrite ∉ (generate env args osEnv store clientUuid).2.2) ∧
    (∀ r, (generate env args osEnv store clientUuid).1 = Except.ok r →
      env.keyFiles ≠ []) := by
  have main : env.keyFiles = [] →
      (∃ e, (generate env args osEnv store clientUuid).1 = Except.error e) ∧
      (generate env args osEnv store clientUuid).2.1 = store ∧
      Event.genKeypair ∉ (generate env args osEnv store clientUuid).2.2 ∧
      Event.storeAdd ∉ (generate env args osEnv store clientUuid).2.2 ∧
      Event.fileWrite ∉ (generate env args osEnv store clientUuid).2.2 := by
    intro hkeys
    simp only [generate, hkeys, List.map_nil, List.length_nil]
    split
    · exact ⟨⟨_, rfl⟩, rfl, by simp, by simp, by simp⟩
    · split
      · split
        · exact ⟨⟨_, rfl⟩, rfl, by simp, by simp, by simp⟩
        · exact ⟨⟨_, rfl⟩, rfl, by simp, by simp, by simp⟩
      · exact ⟨⟨_, rfl⟩, rfl, by simp, by simp, by simp⟩
  refine ⟨main, ?_⟩
  intro r hr hkeys
  rcases (main hkeys).1 with ⟨e, he⟩
  rw [hr] at he
  cases he

/-- Witness for C6: with no host-key files (and everything else in place)
the run fails and the store keeps exactly its previous members. -/
theorem C6_empty_hostkeys_witness :
    (∃ e, (generate ⟨"x", [], some "t", "P", "B", true⟩
        [("server_addr", PyVal.pstr "s"), ("server_port", PyVal.pint 1),
         ("host_key_path", PyVal.pstr "h/"), ("template_path", PyVal.pstr "t")]
        [] ["old"] (some "f47ac10b-58cc-4372-a567-0e02b2c3d479")).1
        = Except.error e) ∧
    (generate ⟨"x", [], some "t", "P", "B", true⟩
        [("server_addr", PyVal.pstr "s"), ("server_port", PyVal.pint 1),
         ("host_key_path", PyVal.pstr "h/"), ("template_path", PyVal.pstr "t")]
        [] ["old"] (some "f47ac10b-58cc-4372-a567-0e02b2c3d479")).2.1
      = ["old"] := by
  have h := (C6_empty_hostkeys ⟨"x", [], some "t", "P", "B", true⟩
      [("server_addr", PyVal.pstr "s"), ("server_port", PyVal.pint 1),
       ("host_key_path", PyVal.pstr "h/"), ("template_path", PyVal.pstr "t")]
      [] ["old"] (some "f47ac10b-58cc-4372-a567-0e02b2c3d479")).1 rfl
  exact ⟨h.1, h.2.1⟩

/-- C9: with a valid identifier and all four configuration variables
resolving, a resolved `host_key_path` that does not end in "/" makes
`generate` fail on the assertion, with an empty effect trace (no host-key
file read, no keypair generation, no store mutation, no artifact write)
and the store unchanged. -/
theorem C9_trailing_slash_assert (env : GenEnv) (args : List (String × PyVal))
    (osEnv : List (String × String)) (store : List String)
    (clientUuid : Option String) (sa sp hk tp : String)
    (hu : is_valid_uuid_v4 (clientUuid.getD env.freshUuid) = true)
    (hsa : getConfigVar "server_addr" args osEnv = .ok sa)
    (hsp : getConfigVar "server_port" args osEnv = .ok sp)
    (hhk : getConfigVar "host_key_path" args osEnv = .ok hk)
    (htp : getConfigVar "template_path" args osEnv = .ok tp)
    (hslash : pyEndsWith hk "/" = false) :
    generate env args osEnv store clientUuid
      = (Except.error GenErr.pathAssertFail, store, []) := by
  simp [generate, hu, hsa, hsp, hhk, htp, hslash]

/-- Witness for C9: `host_key_path` resolved to "h" (no trailing slash)
aborts on the assertion with no effects, even though host-key files and
template are available. -/
theorem C9_trailing_slash_assert_witness :
    generate ⟨"x", ["k"], some "t", "P", "B", true⟩
        [("server_addr", PyVal.pstr "s"), ("server_port", PyVal.pint 1),
         ("host_key_path", PyVal.pstr "h"), ("template_path", PyVal.pstr "t")]
        [] ["old"] (some "f47ac10b-58cc-4372-a567-0e02b2c3d479")
      = (Except.error GenErr.pathAssertFail, ["old"], []) :=
  C9_trailing_slash_assert ⟨"x", ["k"], some "t", "P", "B", true⟩
    [("server_addr", PyVal.pstr "s"), ("server_port", PyVal.pint 1),
     ("host_key_path", PyVal.pstr "h"), ("template_path", PyVal.pstr "t")]
    [] ["old"] (some "f47ac10b-58cc-4372-a567-0e02b2c3d479")
    "s" "1" "h" "t" (by rfl) (by rfl) (by rfl) (by rfl) (by rfl) (by rfl)

/-- C8: any failing `generate` run other than a substitution or
artifact-write failure leaves the registered-clients set unchanged, while
a run failing in substitution or in the artifact write (both of which
happen after the successful insertion) leaves the newly inserted
composite record in the set — it is not rolled back. -/
theorem C8_no_rollback (env : GenEnv) (args : List (String × PyVal))
    (osEnv : List (String × String)) (store : List String)
    (clientUuid : Option String) :
    (∀ e, (generate env args osEnv store clientUuid).1 = Except.error e →
      e ≠ GenErr.substFail → e ≠ GenErr.writeFail →
      (generate env args osEnv store clientUuid).2.1 = store) ∧
    (∀ e, (generate env args osEnv store clientUuid).1 = Except.error e →
      (e = GenErr.substFail ∨ e = GenErr.writeFail) →
      clientUuid.getD env.freshUuid ++ "::" ++ env.pubKey ∈
        (generate env args osEnv store clientUuid).2.1) := by
  simp only [generate]
  repeat' split
  all_goals
    exact ⟨fun e he h1 h2 => by
        first
        | (injection he with h; subst h; simp_all)
        | injection he,
      fun e he hor => by
        first
        | (injection he with h; subst h; simp_all)
        | injection he⟩

/-- Witness for C8: a template referencing the unbound placeholder
`$missing` makes substitution fail after the insertion; the inserted
composite record is still in the resulting set.  An invalid identifier
(pre-insertion failure) leaves the set unchanged. -/
theorem C8_no_rollback_witness :
    "f47ac10b-58cc-4372-a567-0e02b2c3d479::B" ∈
      (generate ⟨"x", ["k"], some "$missing", "P", "B", true⟩
        [("server_addr", PyVal.pstr "s"), ("server_port", PyVal.pint 1),
         ("host_key_path", PyVal.pstr "h/"), ("template_path", PyVal.pstr "t")]
        [] [] (some "f47ac10b-58cc-4372-a567-0e02b2c3d479")).2.1 ∧
    (generate ⟨"x", ["k"], some "$missing", "P", "B", true⟩
        [("server_addr", PyVal.pstr "s"), ("server_port", PyVal.pint 1),
         ("host_key_path", PyVal.pstr "h/"), ("template_path", PyVal.pstr "t")]
        [] ["old"] (some "nope")).2.1 = ["old"] := by
  constructor
  · exact (C8_no_rollback ⟨"x", ["k"], some "$missing", "P", "B", true⟩
      [("server_addr", PyVal.pstr "s"), ("server_port", PyVal.pint 1),
       ("host_key_path", PyVal.pstr "h/"), ("template_path", PyVal.pstr "t")]
      [] [] (some "f47ac10b-58cc-4372-a567-0e02b2c3d479")).2
      GenErr.substFail (by rfl) (Or.inl rfl)
  · exact (C8_no_rollback ⟨"x", ["k"], some "$missing", "P", "B", true⟩
      [("server_addr", PyVal.pstr "s"), ("server_port", PyVal.pint 1),
       ("host_key_path", PyVal.pstr "h/"), ("template_path", PyVal.pstr "t")]
      [] ["old"] (some "nope")).1
      GenErr.invalidUuid (by rfl) (by decide) (by decide)
